import Mathlib

/-!
Verification of the bomb-defusal two-agent orchestration repository.

The Python sources are shallowly embedded as executable Lean definitions:

* Python `str` values are Lean `String`s; the Python string methods used by
  the code (`strip`, `lower`, `startswith`, `splitlines`, the `in` substring
  test) are embedded as `pyStrip`, `pyLower`, `pyStartsWith`, `pySplitlines`
  and `strContains` over the character data.
* The response parser inside `run_two_agents` (src/agents/two_agents.py,
  lines 178-185) is `parseAction` / `parseLines`.
* The orchestration loop `run_two_agents` is embedded as a trace-producing
  function `runExchange` / `runLoop` over an environment of oracles for the
  two model backends and the game server.
* The MCP client `BombClient` (src/game_mcp/game_client.py) is embedded as a
  state-transition function over an explicit resource world.
* `GeminiAPIModel.generate_response` (src/agents/models.py) is embedded as
  `geminiGenerateResponse` over an oracle describing the API call's outcome.
-/

/-! ## Python string primitives -/

/-- The whitespace characters stripped by Python `str.strip()` (ASCII part). -/
def pyIsSpace (c : Char) : Bool :=
  c = ' ' || c = '\t' || c = '\n' || c = '\r' || c = '\x0b' || c = '\x0c'

/-- `l` with leading and trailing whitespace removed: the data-level core of
Python `str.strip()`. -/
def listStrip (l : List Char) : List Char :=
  (l.dropWhile pyIsSpace).rdropWhile pyIsSpace

/-- Python `s.strip()`. -/
def pyStrip (s : String) : String := ⟨listStrip s.data⟩

/-- The uppercase ASCII letters. -/
def upperAlpha : List Char :=
  ['A', 'B', 'C', 'D', 'E', 'F', 'G', 'H', 'I', 'J', 'K', 'L', 'M',
   'N', 'O', 'P', 'Q', 'R', 'S', 'T', 'U', 'V', 'W', 'X', 'Y', 'Z']

/-- The lowercase ASCII letters. -/
def lowerAlpha : List Char :=
  ['a', 'b', 'c', 'd', 'e', 'f', 'g', 'h', 'i', 'j', 'k', 'l', 'm',
   'n', 'o', 'p', 'q', 'r', 's', 't', 'u', 'v', 'w', 'x', 'y', 'z']

/-- Python `str.lower()` on one character (the ASCII fragment, which covers
every literal the code compares against). -/
def pyLowerChar : Char → Char
  | 'A' => 'a'
  | 'B' => 'b'
  | 'C' => 'c'
  | 'D' => 'd'
  | 'E' => 'e'
  | 'F' => 'f'
  | 'G' => 'g'
  | 'H' => 'h'
  | 'I' => 'i'
  | 'J' => 'j'
  | 'K' => 'k'
  | 'L' => 'l'
  | 'M' => 'm'
  | 'N' => 'n'
  | 'O' => 'o'
  | 'P' => 'p'
  | 'Q' => 'q'
  | 'R' => 'r'
  | 'S' => 's'
  | 'T' => 't'
  | 'U' => 'u'
  | 'V' => 'v'
  | 'W' => 'w'
  | 'X' => 'x'
  | 'Y' => 'y'
  | 'Z' => 'z'
  | c => c

/-- Python `s.lower()`. -/
def pyLower (s : String) : String := ⟨s.data.map pyLowerChar⟩

/-- Python `s.startswith(pre)`. -/
def pyStartsWith (s pre : String) : Bool := pre.data.isPrefixOf s.data

/-- Python `needle in hay` (substring containment). -/
def listIsInfix (needle hay : List Char) : Bool :=
  needle.isPrefixOf hay ||
    match hay with
    | [] => false
    | _ :: t => listIsInfix needle t

/-- Python `needle in hay` on strings. -/
def strContains (hay needle : String) : Bool := listIsInfix needle.data hay.data

/-- Python `s.splitlines()` over the character data (`\r\n`, `\n` and `\r`
separators; a trailing separator produces no trailing empty line). -/
def pySplitlinesAux : List Char → List Char → List String
  | [], [] => []
  | [], acc => [⟨acc.reverse⟩]
  | '\r' :: '\n' :: rest, acc => ⟨acc.reverse⟩ :: pySplitlinesAux rest []
  | '\n' :: rest, acc => ⟨acc.reverse⟩ :: pySplitlinesAux rest []
  | '\r' :: rest, acc => ⟨acc.reverse⟩ :: pySplitlinesAux rest []
  | c :: rest, acc => pySplitlinesAux rest (c :: acc)

/-- Python `s.splitlines()`. -/
def pySplitlines (s : String) : List String := pySplitlinesAux s.data []

/-! ## The response parser (src/agents/two_agents.py, lines 178-185)

```python
action = "help"
for line in def_action_raw.splitlines():
    line = line.strip().lower()
    if line.startswith(("cut", "press", "hold", "release", "help", "state")):
        action = line.strip()
        break
```
-/

/-- The keyword tuple of the parser's `startswith` test. -/
def commandKeywords : List String :=
  ["cut", "press", "hold", "release", "help", "state"]

/-- `line.strip().lower()`: the cleaned form the parser computes for each
line before testing it. -/
def cleanLine (line : String) : String := pyLower (pyStrip line)

/-- The parser's per-line test: `line.strip().lower().startswith((...))`. -/
def lineIsCommand (line : String) : Bool :=
  commandKeywords.any (fun kw => pyStartsWith (cleanLine line) kw)

/-- The parser's scan over the list of lines: first line whose cleaned form
starts with a keyword wins (the code then applies one more `strip` to the
already-cleaned line); if none matches the default `"help"` stands. -/
def parseLines : List String → String
  | [] => "help"
  | line :: rest =>
    if lineIsCommand line then pyStrip (cleanLine line) else parseLines rest

/-- The response parser applied to the raw model text. -/
def parseAction (text : String) : String := parseLines (pySplitlines text)

/-! ## The canonical command vocabulary (from the spec, section 6)

Modelled from the spec: the six canonical command shapes
`cut wire <positive integer>`, `press <token>`, `hold`,
`release on <positive integer>`, `state`, `help`. -/

/-- A non-empty all-digit string. -/
def isDigitString (s : String) : Bool := !s.data.isEmpty && s.data.all (·.isDigit)

/-- A digit string denoting a positive integer. -/
def isPosIntString (s : String) : Bool := isDigitString s && s.data.any (· ≠ '0')

/-- Modelled from the spec: whether `s` is one of the six canonical command
shapes of the command vocabulary (spec section 6; the `press` token is an
unconstrained non-empty label). -/
def canonicalCommandSpec (s : String) : Bool :=
  (pyStartsWith s "cut wire " && isPosIntString (String.drop s 9)) ||
  (pyStartsWith s "press " && !(String.drop s 6).isEmpty) ||
  s = "hold" ||
  (pyStartsWith s "release on " && isPosIntString (String.drop s 11)) ||
  s = "state" ||
  s = "help"

/-! ## Helper lemmas about the string primitives -/

theorem pyLowerChar_cases (c : Char) :
    pyLowerChar c = c ∨ (c ∈ upperAlpha ∧ pyLowerChar c ∈ lowerAlpha) := by
  unfold pyLowerChar
  split <;> simp_all [upperAlpha, lowerAlpha]

theorem pyLowerChar_of_mem_lowerAlpha {c : Char} (h : c ∈ lowerAlpha) :
    pyLowerChar c = c := by
  fin_cases h <;> rfl

theorem pyLowerChar_idem (c : Char) : pyLowerChar (pyLowerChar c) = pyLowerChar c := by
  rcases pyLowerChar_cases c with h | ⟨_, h⟩
  · rw [h, h]
  · exact pyLowerChar_of_mem_lowerAlpha h

theorem pyIsSpace_of_mem_lowerAlpha {c : Char} (h : c ∈ lowerAlpha) :
    pyIsSpace c = false := by
  fin_cases h <;> rfl

theorem pyIsSpace_of_mem_upperAlpha {c : Char} (h : c ∈ upperAlpha) :
    pyIsSpace c = false := by
  fin_cases h <;> rfl

theorem pyIsSpace_pyLowerChar (c : Char) : pyIsSpace (pyLowerChar c) = pyIsSpace c := by
  rcases pyLowerChar_cases c with h | ⟨hc, h⟩
  · rw [h]
  · rw [pyIsSpace_of_mem_lowerAlpha h, pyIsSpace_of_mem_upperAlpha hc]

theorem pyLower_pyLower (s : String) : pyLower (pyLower s) = pyLower s := by
  simp [pyLower, List.map_map, Function.comp_def, pyLowerChar_idem]

theorem head?_dropWhile_not (p : Char → Bool) (l : List Char) (x : Char)
    (h : (l.dropWhile p).head? = some x) : p x = false := by
  induction l with
  | nil => simp at h
  | cons a t ih =>
    rw [List.dropWhile_cons] at h
    by_cases hp : p a
    · rw [if_pos hp] at h
      exact ih h
    · rw [if_neg hp] at h
      simp only [List.head?_cons, Option.some.injEq] at h
      subst h
      simpa using hp

theorem listStrip_listStrip (l : List Char) : listStrip (listStrip l) = listStrip l := by
  unfold listStrip
  have hdrop :
      ((l.dropWhile pyIsSpace).rdropWhile pyIsSpace).dropWhile pyIsSpace =
        (l.dropWhile pyIsSpace).rdropWhile pyIsSpace := by
    obtain ⟨t, ht⟩ := List.rdropWhile_prefix pyIsSpace (l.dropWhile pyIsSpace)
    cases hb : (l.dropWhile pyIsSpace).rdropWhile pyIsSpace with
    | nil => rfl
    | cons x bs =>
      have hx : pyIsSpace x = false := by
        apply head?_dropWhile_not pyIsSpace l
        rw [hb] at ht
        rw [← ht]
        rfl
      rw [List.dropWhile_cons, hx]
      simp
  rw [hdrop, List.rdropWhile_idempotent]

theorem listStrip_map_pyLowerChar (l : List Char) :
    listStrip (l.map pyLowerChar) = (listStrip l).map pyLowerChar := by
  unfold listStrip List.rdropWhile
  rw [List.dropWhile_map]
  have hcomp : (pyIsSpace ∘ pyLowerChar) = pyIsSpace := by
    funext c
    exact pyIsSpace_pyLowerChar c
  rw [hcomp, ← List.map_reverse, List.dropWhile_map, hcomp, ← List.map_reverse]

theorem pyStrip_cleanLine (line : String) : pyStrip (cleanLine line) = cleanLine line := by
  show (⟨listStrip (pyLower (pyStrip line)).data⟩ : String) = pyLower (pyStrip line)
  show (⟨listStrip ((pyStrip line).data.map pyLowerChar)⟩ : String) = pyLower (pyStrip line)
  rw [listStrip_map_pyLowerChar]
  show (⟨(listStrip (listStrip line.data)).map pyLowerChar⟩ : String) = pyLower (pyStrip line)
  rw [listStrip_listStrip]
  rfl

/-! ## Parser lemmas -/

theorem parseLines_first (lines : List String) (i : Nat) (h : i < lines.length)
    (hbefore : ∀ l ∈ lines.take i, lineIsCommand l = false)
    (hmatch : lineIsCommand (lines.get ⟨i, h⟩) = true) :
    parseLines lines = cleanLine (lines.get ⟨i, h⟩) := by
  induction lines generalizing i with
  | nil => simp at h
  | cons head tail ih =>
    cases i with
    | zero =>
      simp only [List.get] at hmatch ⊢
      rw [parseLines, if_pos hmatch, pyStrip_cleanLine]
    | succ j =>
      have hhead : lineIsCommand head = false := by
        apply hbefore
        simp [List.take]
      rw [parseLines, if_neg (by simp [hhead])]
      exact ih j (Nat.lt_of_succ_lt_succ h)
        (fun l hl => hbefore l (by simp [List.take, hl]))
        hmatch

theorem parseLines_none (lines : List String)
    (hnone : ∀ l ∈ lines, lineIsCommand l = false) :
    parseLines lines = "help" := by
  induction lines with
  | nil => rfl
  | cons head tail ih =>
    rw [parseLines, if_neg (by simp [hnone head (by simp)])]
    exact ih (fun l hl => hnone l (by simp [hl]))

theorem parseLines_shape (lines : List String) :
    parseLines lines = "help" ∨
      ∃ line ∈ lines, lineIsCommand line = true ∧ parseLines lines = cleanLine line := by
  induction lines with
  | nil => exact Or.inl rfl
  | cons head tail ih =>
    by_cases hhead : lineIsCommand head = true
    · refine Or.inr ⟨head, by simp, hhead, ?_⟩
      rw [parseLines, if_pos hhead, pyStrip_cleanLine]
    · rw [parseLines, if_neg hhead]
      rcases ih with h | ⟨line, hmem, hcmd, heq⟩
      · exact Or.inl h
      · exact Or.inr ⟨line, by simp [hmem], hcmd, heq⟩

/-! ## Game-over detection literals

`run_two_agents` (src/agents/two_agents.py): the raw-state check at line 61
and the post-action check at line 196.  `run_crew_defusal`
(src/crewai_bomb/main.py, lines 48-66): the case-normalised result check. -/

/-- Line 61: `"Bomb disarmed!" in bomb_state_raw or "Bomb exploded!" in bomb_state_raw`. -/
def rawStateGameOver (s : String) : Bool :=
  strContains s "Bomb disarmed!" || strContains s "Bomb exploded!"

/-- Line 196: `"BOMB SUCCESSFULLY DISARMED" in result or "BOMB HAS EXPLODED" in result`. -/
def postActionGameOver (s : String) : Bool :=
  strContains s "BOMB SUCCESSFULLY DISARMED" || strContains s "BOMB HAS EXPLODED"

/-- src/crewai_bomb/main.py lines 48-66: `result_lower = result.lower()` and the
three game-ending conditions tested against it. -/
def crewResultGameOver (result : String) : Bool :=
  let l := pyLower result
  (strContains l "bomb successfully disarmed" || strContains l "bomb disarmed!") ||
  (strContains l "bomb has exploded" || strContains l "bomb exploded!" ||
    strContains l "boom!") ||
  strContains l "game over"

/-! ## Prompt builders (src/agents/prompts.py, configuration 2) -/

/-- One chat message (a Python dict with keys `role` and `content`). -/
structure Message where
  role : String
  content : String
deriving DecidableEq

/-- System message of `defuser_observation_prompt`. -/
def obsSystemMsg : String :=
  "You are the Defuser. You are looking at a bomb module. Your primary task right now is to clearly and concisely describe what you see to your Expert partner. Your Expert partner has the manual but cannot see the bomb. Focus on details that would be relevant for identifying the module and its components based on a manual. For example, mention the number of wires and their colors, serial number, any symbols, numbers, button labels, or the sequence of flashing lights. Be factual and descriptive.Describe everything you see and know about the bomb -- all the details.The expert won't be able to ask you a question, soo be sure not to miss anything."

/-- `defuser_observation_prompt(bomb_state, history=[])` (src/agents/prompts.py
lines 54-83).  The `history` parameter defaults to `[]`; its 5-element window
is computed but never used. -/
def defuser_observation_prompt (bomb_state : String) (history : List Message) :
    List Message :=
  let _window := history.drop (history.length - 5)
  [⟨"system", obsSystemMsg⟩,
   ⟨"user",
    "--- Bomb State Information Start ---\n" ++ bomb_state ++
      "\n--- Bomb State Information End ---\n\nPlease formulate a clear description of this module that I can send to my Expert partner. What should I tell them about what I see?"⟩]

/-- System message of `expert_prompt`. -/
def expertSystemMsg : String :=
  "You are a helpful and very experienced Bomb Defusal Expert. Your partner, the Defuser, is at the bomb and will describe what they see. You have access to the bomb defusal manual. Listen carefully to the Defuser's description, consult the manual excerpt provided, and then give clear, step-by-step instructions on what the Defuser should do next. Do not ask any questions -- give the Defuser a precise command. When formulating your instruction, aim for clarity that helps the Defuser easily determine an exact game command (e.g., 'tell them to cut wire 3', or 'advise them to press the blue button').Pay special attention to the order of the lights in the manual in the Simon Says module as the manual contains an error."

/-- `expert_prompt(manual_text, defuser_description)` (src/agents/prompts.py
lines 151-195): its only inputs are the manual text and the Defuser's
description. -/
def expert_prompt (manual_text defuser_description : String) : List Message :=
  [⟨"system", expertSystemMsg⟩,
   ⟨"user",
    "Okay Expert, here's the situation. The Defuser is looking at the bomb and reports this:\n--- Defuser's Report Start ---\n" ++
      defuser_description ++
      "\n--- Defuser's Report End ---\n\nI've pulled up the relevant section of the manual for you:\n--- Manual Excerpt Start ---\n" ++
      manual_text ++
      "\n--- Manual Excerpt End ---\n\nTHE NEXT COMMENT APPLIES ONLY TO THE SIMON SAYS MODULE. Beware of the error in the Simon Says module.Remember: In Simon Says, treat \"Round N\" as \"the Nth flashing light\". Press buttons in the order of the flashing lights, mapping each color in the flashing light sequence to the corresponding table entry. For example, if the flashing light sequence is \"red, blue\", then press the \"Red, Round 1\" button, then the \"Blue, Round 2\" button.You should find the corresponding table entry for each flashing light in the manual.THE SEQUENCE IS NOT THE FLASHING LIGHT SEQUENCE, BUT THE CORRESPONDING TABLE ENTRY.The vowels are: A, E, I, O, U -- serial number contains an vowel only if it contains an A, E, I, O, or U.Think whether the serial number contains an A, E, I, O, or U to choose the appropriate manual part.---Based on all that, what is the single, most direct instruction you can give the Defuser for their next action?"⟩]

/-- System message of `defuser_prompt`. -/
def defuserSystemMsg : String :=
  "You are the Defuser Bot. Your ONLY task is to read the bomb state and then the expert’s advice, and emit exactly ONE valid game command—no explanations, no extra text. If the expert gives advice, you MUST follow it verbatim. Do NOT contradict or ignore it. Allowed commands (exactly as written):\n  • cut wire <number>\n  • press <color_or_label>\n  • hold\n  • release on <number>\n"

/-- `defuser_prompt(bomb_state, expert_advice)` (src/agents/prompts.py
lines 118-147). -/
def defuser_prompt (bomb_state expert_advice : String) : List Message :=
  [⟨"system", defuserSystemMsg⟩,
   ⟨"user",
    "BOMB_STATE:\n" ++ bomb_state ++ "\n\nEXPERT_ADVICE:\n" ++ expert_advice ++
      "\n\nOUTPUT COMMAND ONLY:"⟩]

/-! ## The orchestration loop (src/agents/two_agents.py, `run_two_agents`)

The loop is embedded as a trace-producing function.  External collaborators
are oracles: the two model backends map a message list to generated text; the
stateful game server maps the list of commands executed so far, plus the new
command, to its textual reply (and similarly for the manual).  Each loop
iteration ("exchange") appends its observable operations, in program order,
to an event trace. -/

/-- The oracles for one run: model backends and server. -/
structure Env where
  defuserGen : List Message → String
  expertGen : List Message → String
  serverRun : List String → String → String
  serverManual : List String → String

/-- One observable operation of an exchange, with its payload. -/
inductive Event
  | stateCall (reply : String)
  | descGen (messages : List Message) (output : String)
  | manualFetch (reply : String)
  | adviceGen (messages : List Message) (output : String)
  | actionGen (messages : List Message) (output : String)
  | parsed (action : String)
  | commandCall (cmd : String) (reply : String)
deriving DecidableEq

/-- The kind of an event, forgetting payloads. -/
inductive EventKind
  | stateCall
  | descGen
  | manualFetch
  | adviceGen
  | actionGen
  | parsed
  | commandCall
deriving DecidableEq

/-- Forget an event's payload. -/
def Event.kind : Event → EventKind
  | .stateCall _ => .stateCall
  | .descGen _ _ => .descGen
  | .manualFetch _ => .manualFetch
  | .adviceGen _ _ => .adviceGen
  | .actionGen _ _ => .actionGen
  | .parsed _ => .parsed
  | .commandCall _ _ => .commandCall

/-- One exchange of `run_two_agents` (steps 2-7 of the loop body), starting
from the list `past` of commands executed so far.  Returns the event trace of
the exchange, the updated command list, and `some result` when the loop
terminates in this exchange. -/
def runExchange (env : Env) (past : List String) :
    List Event × List String × Option String :=
  let bombStateRaw := env.serverRun past "state"
  let past1 := past ++ ["state"]
  if rawStateGameOver bombStateRaw then
    ([.stateCall bombStateRaw], past1, some bombStateRaw)
  else
    let obsMessages := defuser_observation_prompt bombStateRaw []
    let description := env.defuserGen obsMessages
    let manualText := env.serverManual past1
    let expMessages := expert_prompt manualText description
    let advice := env.expertGen expMessages
    let defMessages := defuser_prompt bombStateRaw advice
    let actionRaw := env.defuserGen defMessages
    let action := parseAction actionRaw
    let result := env.serverRun past1 action
    let past2 := past1 ++ [action]
    ([.stateCall bombStateRaw, .descGen obsMessages description,
      .manualFetch manualText, .adviceGen expMessages advice,
      .actionGen defMessages actionRaw, .parsed action,
      .commandCall action result],
     past2,
     if postActionGameOver result then some result else none)

/-- The `while True` loop of `run_two_agents`, fuelled: `runLoop env fuel past`
returns the concatenated event trace and the final outcome (`none` when the
fuel ran out before a terminal server reply). -/
def runLoop (env : Env) : Nat → List String → List Event × Option String
  | 0, _ => ([], none)
  | fuel + 1, past =>
    match runExchange env past with
    | (events, _, some result) => (events, some result)
    | (events, past1, none) =>
      let rest := runLoop env fuel past1
      (events ++ rest.1, rest.2)

/-! ## The MCP client (src/game_mcp/game_client.py, `BombClient`)

`connect_to_server` acquires up to two scoped resources on an
`AsyncExitStack`: the SSE transport (entered first, yielding the read/write
stream pair) and the `ClientSession` (entered second); `initialize()` then
performs the handshake.  `cleanup` closes the exit stack, releasing every
registered resource, and clears all attributes.  Resources are modelled as
ids drawn from a counter in an explicit `World`; a resource is open while its
id is in `World.openRes`, and registered for release while its id is in the
client's `exitStack`. -/

/-- The two exception classes the `except` clauses of `connect_to_server`
distinguish. -/
inductive PyErr
  | connectionRefused
  | otherError
deriving DecidableEq

/-- Which awaited step of `connect_to_server` raises. -/
inductive FailStep
  | sseEnter
  | sessionEnter
  | initCall
deriving DecidableEq

/-- The outcome script of one connect attempt: every awaited acquisition step
succeeds, or a named step raises an exception of a given class. -/
inductive ConnectScript
  | success
  | fail (step : FailStep) (err : PyErr)
deriving DecidableEq

/-- The resource world: a fresh-id counter and the set of open resources. -/
structure World where
  nextId : Nat
  openRes : List Nat
deriving DecidableEq

/-- The attributes of a `BombClient` instance. -/
structure BombClient where
  session : Option Nat
  sseCtx : Option Nat
  readS : Option Nat
  writeS : Option Nat
  exitStack : List Nat
  serverUrl : Option String
deriving DecidableEq

/-- A freshly constructed `BombClient` (its `__init__`). -/
def BombClient.init : BombClient := ⟨none, none, none, none, [], none⟩

/-- `BombClient.cleanup`: `await self.exit_stack.aclose()` releases every
registered resource, then all attributes are reset. -/
def cleanupClient (w : World) (c : BombClient) : World × BombClient :=
  (⟨w.nextId, w.openRes.filter (fun i => !c.exitStack.contains i)⟩,
   ⟨none, none, none, none, [], none⟩)

/-- `BombClient.connect_to_server(url)`.  Returns the world, the client and
`some err` when the call re-raises an exception.  Mirrors the source: an
already-connected client is cleaned up first; the SSE context object is
created (no resource yet); entering the SSE context registers the transport
resource and binds the stream pair; entering the `ClientSession` registers
the session resource; `initialize()` performs the handshake.  A
`ConnectionRefusedError` clears `server_url` and re-raises without cleanup;
any other exception clears `server_url`, runs `cleanup`, and re-raises. -/
def connectToServer (script : ConnectScript) (url : String) (w0 : World)
    (c0 : BombClient) : World × BombClient × Option PyErr :=
  let wc := if c0.session.isSome then cleanupClient w0 c0 else (w0, c0)
  let w := wc.1
  let c := wc.2
  let c := { c with serverUrl := some url }
  let ctxId := w.nextId
  let w : World := ⟨w.nextId + 1, w.openRes⟩
  let c := { c with sseCtx := some ctxId }
  match script with
  | .fail .sseEnter .connectionRefused =>
    (w, { c with serverUrl := none }, some .connectionRefused)
  | .fail .sseEnter .otherError =>
    let wc2 := cleanupClient w { c with serverUrl := none }
    (wc2.1, wc2.2, some .otherError)
  | script =>
    let transportId := w.nextId
    let w : World := ⟨w.nextId + 1, w.openRes ++ [transportId]⟩
    let c := { c with
      readS := some transportId, writeS := some transportId,
      exitStack := c.exitStack ++ [transportId] }
    match script with
    | .fail .sessionEnter .connectionRefused =>
      (w, { c with serverUrl := none }, some .connectionRefused)
    | .fail .sessionEnter .otherError =>
      let wc2 := cleanupClient w { c with serverUrl := none }
      (wc2.1, wc2.2, some .otherError)
    | script =>
      let sessionId := w.nextId
      let w : World := ⟨w.nextId + 1, w.openRes ++ [sessionId]⟩
      let c := { c with
        session := some sessionId, exitStack := c.exitStack ++ [sessionId] }
      match script with
      | .fail .initCall .connectionRefused =>
        (w, { c with serverUrl := none }, some .connectionRefused)
      | .fail .initCall .otherError =>
        let wc2 := cleanupClient w { c with serverUrl := none }
        (wc2.1, wc2.2, some .otherError)
      | _ => (w, c, none)

/-! ## The Gemini backend (src/agents/models.py, `GeminiAPIModel.generate_response`)

The underlying API call and the shape of its response are an oracle.  A
response's `.text` accessor either yields a string or raises (modelled as
`none`; the real accessor raises `ValueError` when no valid candidate
exists); `parts` is the `candidates[0].content.parts` chain, `[]` when any
link of that chain is missing or empty. -/

/-- The observable shape of a Gemini API response. -/
structure GeminiResponse where
  text : Option String
  parts : List String
deriving DecidableEq

/-- The outcome of the underlying API call. -/
inductive ApiBehavior
  | raise
  | respond (r : GeminiResponse)
deriving DecidableEq

/-- Python `"\n".join`-free concatenation of multiple system prompts:
`f"{a}\n{b}"` folded over the system messages. -/
def joinSystem : List String → Option String
  | [] => none
  | s :: rest =>
    match joinSystem rest with
    | none => some s
    | some t => some (s ++ "\n" ++ t)

/-- The system-instruction content accumulated by `generate_response`
(first system message, later ones appended with `\n`). -/
def systemContent (messages : List Message) : Option String :=
  joinSystem ((messages.filter (fun m => m.role = "system")).map Message.content)

/-- The non-system messages, in order. -/
def processedMessages (messages : List Message) : List Message :=
  messages.filter (fun m => !(m.role = "system"))

/-- `GeminiAPIModel.generate_response(messages, ...)`: the pure part before
the API call computes the chat history; the API call and the response
unpacking follow the source's branches.  `sysInstrOk` is the oracle for
whether `GenerativeModel(..., system_instruction=...)` succeeds (the `try`
around model creation); `api` is the oracle for the API call itself.  The
function is total: every exception of the call/unpacking region is caught by
the source's `except Exception` and turned into `"help"`. -/
def geminiGenerateResponse (messages : List Message) (sysInstrOk : Bool)
    (api : ApiBehavior) : String :=
  let sys := systemContent messages
  let processed := processedMessages messages
  -- model creation: on failure with a system instruction, the system text is
  -- prepended to the first user message, or appended as a user message
  let processed : List Message :=
    match sys, sysInstrOk with
    | some s, false =>
      match processed with
      | m :: rest =>
        if m.role = "user" then { m with content := s ++ "\n\n" ++ m.content } :: rest
        else processed ++ [(⟨"user", s⟩ : Message)]
      | [] => [(⟨"user", s⟩ : Message)]
    | _, _ => processed
  let history := processed.map (fun m =>
    (if m.role = "user" then "user" else "model", m.content))
  -- `if not gemini_chat_history:` — the system-only fallback
  let history :=
    if history.isEmpty then
      match sys, sysInstrOk, processed with
      | some s, true, [] => [("user", s)]
      | _, _, _ => []
    else history
  if history.isEmpty then "help"
  else
    match api with
    | .raise => "help"
    | .respond r =>
      match r.text with
      | none => "help"
      | some t =>
        if !t.isEmpty then pyStrip t
        else if !r.parts.isEmpty then pyStrip (String.join r.parts)
        else "help"

/-! ## Claim theorems -/

/-- C1: the Response Parser scans the text line by line from top to bottom; the
first line whose trimmed, lower-cased form starts with one of the keywords
`cut`, `press`, `hold`, `release`, `help`, `state` is the result (returned as
that trimmed, lower-cased line) and scanning stops there; if no line matches,
the result is the literal command `help`. -/
theorem claim1_parser_first_match_or_help :
    (∀ (text : String) (i : Nat) (h : i < (pySplitlines text).length),
      (∀ l ∈ (pySplitlines text).take i, lineIsCommand l = false) →
      lineIsCommand ((pySplitlines text).get ⟨i, h⟩) = true →
      parseAction text = cleanLine ((pySplitlines text).get ⟨i, h⟩)) ∧
    (∀ text : String, (∀ l ∈ pySplitlines text, lineIsCommand l = false) →
      parseAction text = "help") := by
  constructor
  · intro text i h hbefore hmatch
    exact parseLines_first (pySplitlines text) i h hbefore hmatch
  · intro text hnone
    exact parseLines_none (pySplitlines text) hnone

/-- Witness for C1: on a text whose first keyword line is at position 1, the
parser returns that line; on a keyword-free text it returns `help`. -/
theorem claim1_witness :
    parseAction "I will act now.\ncut wire 2\npress blue" = "cut wire 2" ∧
    parseAction "no keyword anywhere" = "help" := by
  constructor
  · have h := claim1_parser_first_match_or_help.1
      "I will act now.\ncut wire 2\npress blue" 1 (by decide) (by decide) (by decide)
    exact h.trans (by decide)
  · exact claim1_parser_first_match_or_help.2 "no keyword anywhere" (by decide)

/-- C2 counterexample: the parser does not always return one of the six
canonical command shapes or `help` — on the text "hold on a second" it
returns the whole line, which is none of the canonical shapes and not
`help`. -/
theorem claim2_counterexample :
    parseAction "hold on a second" = "hold on a second" ∧
    canonicalCommandSpec "hold on a second" = false := by
  constructor <;> decide

/-- C2 (amended): for every input text the parser returns either the fallback
`help` or the trimmed, lower-cased form of some line of the text whose
trimmed, lower-cased form starts with one of the six keywords (such a line
need not be a canonical command shape); the parser is a pure function of the
text, so this accounts for all outputs. -/
theorem claim2_parser_output_shape (text : String) :
    parseAction text = "help" ∨
      ∃ line ∈ pySplitlines text, lineIsCommand line = true ∧
        parseAction text = cleanLine line :=
  parseLines_shape (pySplitlines text)

/-- C10: the keyword match is a raw string-prefix check with no word boundary
and no command-shape validation: any line whose trimmed, lower-cased form
begins with one of the keywords is returned in full as the parsed command —
in particular "cutting it now" and "pressure is rising" are returned although
neither is a canonical command. -/
theorem claim10_prefix_no_boundary :
    (∀ (line : String) (rest : List String), lineIsCommand line = true →
      parseLines (line :: rest) = cleanLine line) ∧
    parseAction "cutting it now" = "cutting it now" ∧
    parseAction "pressure is rising" = "pressure is rising" ∧
    canonicalCommandSpec "cutting it now" = false ∧
    canonicalCommandSpec "pressure is rising" = false := by
  refine ⟨?_, by decide, by decide, by decide, by decide⟩
  intro line rest h
  rw [parseLines, if_pos h, pyStrip_cleanLine]

/-- Witness for C10: the general prefix-match clause applied to the concrete
line "cutting it now". -/
theorem claim10_witness : parseLines ["cutting it now"] = "cutting it now" := by
  have h := claim10_prefix_no_boundary.1 "cutting it now" [] (by decide)
  exact h.trans (by decide)

/-- A concrete environment whose server reports a terminal state at once. -/
def envTerminal : Env :=
  ⟨fun _ => "d", fun _ => "a", fun _ _ => "Bomb disarmed!", fun _ => "m"⟩

/-- A concrete environment whose server reports an ordinary, non-terminal
state and an ordinary command result. -/
def envPlain : Env :=
  ⟨fun _ => "d", fun _ => "a", fun _ cmd => if cmd = "state" then "BOMB STATE: wires" else "ok",
   fun _ => "m"⟩

/-- C3: in every exchange, if the raw result of the exchange-initial
`execute("state")` call contains a disarmed- or exploded-indicating
substring, the exchange's trace is exactly the one state call — no
description, advice or action generation occurs — and the loop terminates
immediately with that result as the final outcome. -/
theorem claim3_terminal_state_short_circuits (env : Env) (past : List String)
    (h : rawStateGameOver (env.serverRun past "state") = true) :
    runExchange env past =
      ([Event.stateCall (env.serverRun past "state")], past ++ ["state"],
        some (env.serverRun past "state")) ∧
    ∀ fuel : Nat, runLoop env (fuel + 1) past =
      ([Event.stateCall (env.serverRun past "state")],
        some (env.serverRun past "state")) := by
  have hex : runExchange env past =
      ([Event.stateCall (env.serverRun past "state")], past ++ ["state"],
        some (env.serverRun past "state")) := by
    unfold runExchange
    simp [h]
  refine ⟨hex, fun fuel => ?_⟩
  unfold runLoop
  rw [hex]

/-- Witness for C3: with a server that replies "Bomb disarmed!" to the state
query, the first exchange's trace is the lone state call and the run ends
with that reply. -/
theorem claim3_witness :
    runLoop envTerminal 1 [] = ([Event.stateCall "Bomb disarmed!"], some "Bomb disarmed!") :=
  (claim3_terminal_state_short_circuits envTerminal [] (by decide)).2 0

/-- C4: within every exchange whose state reply is not terminal the
operations occur in exactly the order state call, description generation,
manual fetch, advice generation, action generation, parse, command call —
none skipped, none reordered — and the loop's trace is exchange N's full
trace followed by the trace of the remaining exchanges. -/
theorem claim4_exchange_ordering :
    (∀ (env : Env) (past : List String),
      rawStateGameOver (env.serverRun past "state") = false →
      ((runExchange env past).1).map Event.kind =
        [EventKind.stateCall, EventKind.descGen, EventKind.manualFetch,
         EventKind.adviceGen, EventKind.actionGen, EventKind.parsed,
         EventKind.commandCall]) ∧
    (∀ (env : Env) (fuel : Nat) (past : List String),
      (runLoop env (fuel + 1) past).1 =
        (runExchange env past).1 ++
          (match runExchange env past with
           | (_, _, some _) => []
           | (_, past1, none) => (runLoop env fuel past1).1)) := by
  constructor
  · intro env past h
    unfold runExchange
    simp [h, Event.kind]
  · intro env fuel past
    have h1 : runLoop env (fuel + 1) past =
        match runExchange env past with
        | (events, _, some r) => (events, some r)
        | (events, past1, none) =>
          (events ++ (runLoop env fuel past1).1, (runLoop env fuel past1).2) := rfl
    rcases hr : runExchange env past with ⟨events, past1, result⟩
    rw [h1, hr]
    cases result <;> simp

/-- Witness for C4: the ordering clause applied to a concrete
environment with a non-terminal state reply. -/
theorem claim4_witness :
    ((runExchange envPlain []).1).map Event.kind =
      [EventKind.stateCall, EventKind.descGen, EventKind.manualFetch,
       EventKind.adviceGen, EventKind.actionGen, EventKind.parsed,
       EventKind.commandCall] :=
  claim4_exchange_ordering.1 envPlain [] (by decide)

/-- The character at index 19 of the first message's content: a cheap tag
distinguishing the three prompt shapes (it is `.` for an observation prompt,
a space for an action prompt and `n` for an advice prompt). -/
def promptTag (msgs : List Message) : Char :=
  match msgs with
  | m :: _ => (m.content.data.drop 19).headD ' '
  | [] => 'x'

/-- An environment whose action generation (tagged by the action prompt's
shape) yields `cut wire 1`; the server is oblivious to past commands, so the
second exchange repeats the same state, manual text and description. -/
def envHistA : Env :=
  ⟨fun msgs => if promptTag msgs = ' ' then "cut wire 1" else "D",
   fun _ => "A",
   fun _ cmd => if cmd = "state" then "S" else "R",
   fun _ => "M"⟩

/-- Identical to `envHistA` except that its action generation yields
`press a`, so the two runs accumulate different parsed commands. -/
def envHistB : Env :=
  ⟨fun msgs => if promptTag msgs = ' ' then "press a" else "D",
   fun _ => "A",
   fun _ cmd => if cmd = "state" then "S" else "R",
   fun _ => "M"⟩

/-- C5 counterexample: the loop keeps no history of parsed commands and
passes none to the Expert's advice-generation step — two runs whose first
exchanges parse different commands (`cut wire 1` vs `press a`) present the
Expert with identical advice-generation prompts in the second exchange, so
the accumulated command history is not an input of that step. -/
theorem claim5_counterexample :
    (runLoop envHistA 2 []).1.get? 5 = some (Event.parsed "cut wire 1") ∧
    (runLoop envHistB 2 []).1.get? 5 = some (Event.parsed "press a") ∧
    (runLoop envHistA 2 []).1.get? 10 = (runLoop envHistB 2 []).1.get? 10 ∧
    (runLoop envHistA 2 []).1.get? 10 =
      some (Event.adviceGen (expert_prompt "M" "D") "A") := by
  refine ⟨?_, ?_, ?_, ?_⟩ <;> rfl

/-- C5 (amended): the loop maintains no running history of parsed commands;
in every non-terminal exchange the Expert's advice-generation step receives
exactly the prompt built by `expert_prompt` from the manual text and the
Defuser's generated description — no command history is among its inputs. -/
theorem claim5_advice_prompt_inputs (env : Env) (past : List String)
    (h : rawStateGameOver (env.serverRun past "state") = false) :
    (runExchange env past).1.get? 3 =
      some (Event.adviceGen
        (expert_prompt (env.serverManual (past ++ ["state"]))
          (env.defuserGen (defuser_observation_prompt (env.serverRun past "state") [])))
        (env.expertGen
          (expert_prompt (env.serverManual (past ++ ["state"]))
            (env.defuserGen
              (defuser_observation_prompt (env.serverRun past "state") []))))) := by
  unfold runExchange
  simp [h]

/-- Witness for C5: the amended clause at a concrete non-terminal
environment. -/
theorem claim5_witness :
    (runExchange envPlain []).1.get? 3 =
      some (Event.adviceGen (expert_prompt "m" "d") "a") :=
  claim5_advice_prompt_inputs envPlain [] (by decide)

/-- C6 counterexample: the post-action check of `run_two_agents` (line 196)
is case-sensitive, not case-insensitive — it accepts "BOMB HAS EXPLODED" but
rejects its lower-cased form, so it does not yield the same verdict on every
text and its lower-cased form. -/
theorem claim6_counterexample :
    postActionGameOver "BOMB HAS EXPLODED" = true ∧
    postActionGameOver (pyLower "BOMB HAS EXPLODED") = false := by
  constructor <;> decide

/-- C6 (amended): terminal-state detection is substring matching; in
`run_two_agents` both the raw-state check (against "Bomb disarmed!" /
"Bomb exploded!") and the post-action check (against
"BOMB SUCCESSFULLY DISARMED" / "BOMB HAS EXPLODED") are case-sensitive; the
case-insensitive variant is the crewai loop's result check, which yields the
same verdict on every text and its lower-cased form. -/
theorem claim6_gameover_case_handling :
    (rawStateGameOver "Bomb disarmed!" = true ∧
      rawStateGameOver "bomb disarmed!" = false ∧
      rawStateGameOver "Bomb exploded!" = true ∧
      rawStateGameOver "bomb exploded!" = false) ∧
    (postActionGameOver "BOMB SUCCESSFULLY DISARMED" = true ∧
      postActionGameOver "bomb successfully disarmed" = false ∧
      postActionGameOver "BOMB HAS EXPLODED" = true ∧
      postActionGameOver "bomb has exploded" = false) ∧
    (∀ s : String, crewResultGameOver s = crewResultGameOver (pyLower s)) := by
  refine ⟨by decide, by decide, fun s => ?_⟩
  unfold crewResultGameOver
  rw [pyLower_pyLower]

/-- C7: a second connect on an already-connected client first tears down the
existing session — the call is equal to cleaning up and then connecting from
the cleaned state — and none of the prior session's resources survive: every
id registered on the old exit stack is neither open in the resulting world
nor registered on the resulting exit stack, so the client never holds two
sessions' resources. -/
theorem claim7_reconnect_teardown (script : ConnectScript) (url : String)
    (w : World) (c : BombClient) (hs : c.session.isSome = true)
    (hwf : ∀ i ∈ c.exitStack, i < w.nextId) :
    connectToServer script url w c =
      connectToServer script url (cleanupClient w c).1 (cleanupClient w c).2 ∧
    (∀ i ∈ c.exitStack, i ∉ ((connectToServer script url w c).1).openRes) ∧
    (∀ i ∈ c.exitStack, i ∉ ((connectToServer script url w c).2.1).exitStack) := by
  refine ⟨?_, ?_, ?_⟩
  · unfold connectToServer
    simp [hs, cleanupClient]
  · intro i hi
    have hlt := hwf i hi
    rcases script with _ | ⟨step, err⟩ <;> try rcases step <;> rcases err
    all_goals simp only [connectToServer, hs, if_true, cleanupClient]
    all_goals simp [List.mem_filter, hi]
    all_goals omega
  · intro i hi
    have hlt := hwf i hi
    rcases script with _ | ⟨step, err⟩ <;> try rcases step <;> rcases err
    all_goals simp only [connectToServer, hs, if_true, cleanupClient]
    all_goals simp
    all_goals omega

/-- Witness for C7: a concrete connected client whose old session resources
(ids 0 and 1) are gone from the open set and the exit stack after a
successful reconnect. -/
theorem claim7_witness :
    0 ∉ ((connectToServer .success "u" ⟨2, [0, 1]⟩
      ⟨some 1, some 9, some 0, some 0, [0, 1], some "old"⟩).1).openRes ∧
    1 ∉ ((connectToServer .success "u" ⟨2, [0, 1]⟩
      ⟨some 1, some 9, some 0, some 0, [0, 1], some "old"⟩).2.1).exitStack := by
  have h := claim7_reconnect_teardown .success "u" ⟨2, [0, 1]⟩
    ⟨some 1, some 9, some 0, some 0, [0, 1], some "old"⟩ (by decide) (by decide)
  exact ⟨h.2.1 0 (by decide), h.2.2 1 (by decide)⟩

/-- C8 counterexample: a `ConnectionRefusedError` raised by the handshake
(`initialize()`) propagates without any cleanup — after the failed connect
the client still registers the transport (id 1) and session (id 2)
resources, both of which remain open, so connect is not atomic on every
failure path. -/
theorem claim8_counterexample :
    connectToServer (.fail .initCall .connectionRefused) "url" ⟨0, []⟩ BombClient.init =
      (⟨3, [1, 2]⟩, ⟨some 2, some 0, some 1, some 1, [1, 2], none⟩,
        some PyErr.connectionRefused) := by
  rfl

/-- C8 (amended): on every failure path of `connect_to_server` that raises
anything other than `ConnectionRefusedError`, every resource acquired during
the call is released before the error propagates (for a fresh client the
open-resource set returns to its pre-call value and the exit stack is
empty); the `ConnectionRefusedError` path performs no cleanup, so it leaks
nothing only when the refusal precedes any resource registration — as it
does at the initial transport connect, the step at which refusal occurs. -/
theorem claim8_failure_cleanup (url : String) (w : World) (c : BombClient)
    (hsess : c.session = none) (hstack : c.exitStack = [])
    (hwf : ∀ i ∈ w.openRes, i < w.nextId) :
    (∀ step : FailStep,
      ((connectToServer (.fail step .otherError) url w c).1).openRes = w.openRes ∧
      ((connectToServer (.fail step .otherError) url w c).2.1).exitStack = [] ∧
      (connectToServer (.fail step .otherError) url w c).2.2 = some PyErr.otherError) ∧
    (((connectToServer (.fail .sseEnter .connectionRefused) url w c).1).openRes =
        w.openRes ∧
      ((connectToServer (.fail .sseEnter .connectionRefused) url w c).2.1).exitStack =
        [] ∧
      (connectToServer (.fail .sseEnter .connectionRefused) url w c).2.2 =
        some PyErr.connectionRefused) := by
  obtain ⟨sess, ctx, rd, wr, stack, su⟩ := c
  dsimp only at hsess hstack
  subst hsess
  subst hstack
  have key : ∀ (ns : List Nat), (∀ j ∈ ns, w.nextId ≤ j) →
      (w.openRes ++ ns).filter (fun i => !(ns.contains i)) = w.openRes := by
    intro ns hns
    rw [List.filter_append]
    have h1 : w.openRes.filter (fun i => !(ns.contains i)) = w.openRes := by
      rw [List.filter_eq_self]
      intro x hx
      have hxlt := hwf x hx
      have hxn : x ∉ ns := fun hmem => by
        have := hns x hmem
        omega
      simp [hxn]
    have h2 : ns.filter (fun i => !(ns.contains i)) = [] := by
      rw [List.filter_eq_nil_iff]
      intro a ha
      simp [ha]
    rw [h1, h2, List.append_nil]
  refine ⟨fun step => ?_, rfl, rfl, rfl⟩
  rcases step
  · refine ⟨?_, rfl, rfl⟩
    simp [connectToServer, cleanupClient]
  · refine ⟨?_, rfl, rfl⟩
    simp only [connectToServer, cleanupClient, List.nil_append]
    exact key [w.nextId + 1] (by
      intro j hj
      simp at hj
      omega)
  · refine ⟨?_, rfl, rfl⟩
    show List.filter (fun i => !([w.nextId + 1, w.nextId + 2].contains i))
        ((w.openRes ++ [w.nextId + 1]) ++ [w.nextId + 2]) = w.openRes
    rw [List.append_assoc]
    exact key [w.nextId + 1, w.nextId + 2] (by
      intro j hj
      simp at hj
      rcases hj with h | h <;> omega)

/-- Witness for C8: a failure of the `ClientSession` entry with a generic
exception leaves the open-resource set as it was before the call and an
empty exit stack. -/
theorem claim8_witness :
    ((connectToServer (.fail .sessionEnter .otherError) "u" ⟨5, [0, 3]⟩
        BombClient.init).1).openRes = [0, 3] ∧
    ((connectToServer (.fail .sessionEnter .otherError) "u" ⟨5, [0, 3]⟩
        BombClient.init).2.1).exitStack = [] := by
  have h := (claim8_failure_cleanup "u" ⟨5, [0, 3]⟩ BombClient.init rfl rfl
    (by decide)).1 .sessionEnter
  exact ⟨h.1, h.2.1⟩

/-- C9 counterexample: an empty API response whose candidate carries one
empty text part makes `generate_response` return the empty string, not the
sentinel `"help"` — the joined-and-stripped parts text is returned even when
it is empty. -/
theorem claim9_counterexample :
    geminiGenerateResponse [⟨"user", "hi"⟩] true (.respond ⟨some "", [""]⟩) = "" ∧
    geminiGenerateResponse [⟨"user", "hi"⟩] true (.respond ⟨some "", [""]⟩) ≠ "help" := by
  constructor
  · rfl
  · decide

/-- C9 (amended): `GeminiAPIModel.generate_response` never propagates an
exception of the API call or of the response unpacking — an exception is
caught and turned into `"help"`, and a response whose text is inaccessible
or empty with no candidate parts also yields `"help"`; only a response with
a non-empty candidate-parts list is unpacked into its joined, stripped parts
text, which may itself be empty instead of `"help"`. -/
theorem claim9_backend_fallback :
    (∀ (messages : List Message) (sysOk : Bool),
      geminiGenerateResponse messages sysOk .raise = "help") ∧
    (∀ (messages : List Message) (sysOk : Bool) (parts : List String),
      geminiGenerateResponse messages sysOk (.respond ⟨none, parts⟩) = "help") ∧
    (∀ (messages : List Message) (sysOk : Bool),
      geminiGenerateResponse messages sysOk (.respond ⟨some "", []⟩) = "help") := by
  refine ⟨?_, ?_, ?_⟩ <;> intros <;> exact ite_self "help"
